import Mathlib

/-!
# Verification of the rpm-to-dockerfile build orchestrator

Shallow embedding of `main.go` of `vrothberg/rpm-to-dockerfile`.

The embedding has three layers:

* a per-context functional model of the body of the build loop of
  `buildImages` (`rebuildFilter`, `runJob`, `processContext`), together
  with a sequential run model (`runLoop`, `buildImages`) — this layer is
  faithful for all per-context file-system and ledger-membership facts,
  because in the source each goroutine only ever touches the files of
  its own context and appends at most its own context to the ledger;
* a model of `createDNFCache` (cache provisioning) tracking whether the
  temporary cache directory exists on disk afterwards;
* a model of the Go function `filepath.Walk` applied to the exact callback of
  `buildImages` (which ignores its `err` argument), over directory
  trees that may contain unreadable directories and `lstat` failures;
* a small-step transition system (`OState`, `OStep`) for the concurrent
  part of `buildImages`: the main loop acquiring semaphore slots and
  launching goroutines, each goroutine building, appending to the shared
  `failedBuilds` slice (modelled as the non-atomic read-modify-write
  that an unsynchronized Go slice append is), writing its log, cleaning
  up on success and releasing its slot via `defer`; the main thread
  prints the failure report as soon as its loop is done, with no
  barrier, exactly as in the source.
-/

/-- Contents of a build-log file, as written by `buildImages`. -/
inductive LogContent where
  /-- `fmt.Sprintf("%s: %s", buildErr, output)` written after a build
  attempt; `failed` records whether `buildErr` was non-nil. -/
  | buildResult (failed : Bool) (output : String)
  /-- `fmt.Sprintf("%s", err)` written when `sem.Acquire` fails
  (main.go line 220). -/
  | acquireError
deriving DecidableEq

/-- The two possible log files colocated with one build context:
`buildlog` (plain) and `buildlog.fail` (failure-suffixed).
`none` means the file does not exist. -/
structure CtxState where
  plainLog : Option LogContent
  failLog : Option LogContent
deriving DecidableEq

/-- Environment oracle for the trip of one context through the loop body:
whether `sem.Acquire` succeeds, whether `podman build` exits zero, the
combined output it produces, and whether `podman rmi` succeeds. -/
structure JobOracle where
  acquireOk : Bool
  buildOk : Bool
  buildOutput : String
  rmiOk : Bool
deriving DecidableEq

/-- Observable outcome of the trip of one context through the loop body. -/
structure JobResult where
  /-- log files next to the Dockerfile after the run -/
  fs : CtxState
  /-- whether the context was appended to `failedBuilds` -/
  appendedToLedger : Bool
  /-- whether `podman build` was run for this context -/
  buildAttempted : Bool
  /-- whether `podman rmi` was run for this context -/
  cleanupAttempted : Bool
  /-- whether removing the image failed (only logged, main.go line 255) -/
  cleanupWarning : Bool
  /-- whether the rebuild filter skipped the context (`continue`) -/
  skipped : Bool
deriving DecidableEq

/-- main.go lines 208-217: in rebuild mode a context is skipped
(`continue`) unless `buildlog.fail` exists (`os.Stat` succeeds), and on
inclusion the marker is removed (`os.Remove`) before anything else runs.
Returns `none` when the context is skipped, otherwise the context state
the rest of the loop body sees. -/
def rebuildFilter (rebuild : Bool) (st : CtxState) : Option CtxState :=
  if rebuild then
    match st.failLog with
    | none => none
    | some _ => some { st with failLog := none }
  else
    some st

/-- main.go lines 219-257: acquire a slot; on acquisition failure write
the error to the plain `buildlog` and move on (no build, no ledger
append). Otherwise run `podman build`; on failure write the output to
`buildlog.fail`, append to `failedBuilds` and return without cleanup; on
success write the output to `buildlog` and run `podman rmi`, a failure
of which is only logged. -/
def runJob (st : CtxState) (o : JobOracle) : JobResult :=
  if !o.acquireOk then
    { fs := { st with plainLog := some .acquireError }
      appendedToLedger := false
      buildAttempted := false
      cleanupAttempted := false
      cleanupWarning := false
      skipped := false }
  else if o.buildOk then
    { fs := { st with plainLog := some (.buildResult false o.buildOutput) }
      appendedToLedger := false
      buildAttempted := true
      cleanupAttempted := true
      cleanupWarning := !o.rmiOk
      skipped := false }
  else
    { fs := { st with failLog := some (.buildResult true o.buildOutput) }
      appendedToLedger := true
      buildAttempted := true
      cleanupAttempted := false
      cleanupWarning := false
      skipped := false }

/-- One full iteration of the build loop of `buildImages` (main.go lines
204-257) for a single context. -/
def processContext (rebuild : Bool) (st : CtxState) (o : JobOracle) : JobResult :=
  match rebuildFilter rebuild st with
  | none =>
    { fs := st
      appendedToLedger := false
      buildAttempted := false
      cleanupAttempted := false
      cleanupWarning := false
      skipped := true }
  | some stIncluded => runJob stIncluded o

/-- Outcome of running `podman run ... dnf check-update` in
`createDNFCache`: zero exit, non-zero exit with a concrete exit code
(`*exec.ExitError`), or a failure that is not an `ExitError`. -/
inductive CmdResult where
  | exitZero
  | exitNonZero (code : Nat)
  | startFailure
deriving DecidableEq

/-- main.go lines 143-177 (`createDNFCache`): create a temporary cache
directory, run the warm-up `dnf check-update` container; exit code 100
("updates available") is accepted like success, any other failure is
returned as an error. The second component records whether the cache
directory exists on disk afterwards: nothing ever removes it. -/
def createDNFCache (mkTempOk : Bool) (w : CmdResult) : Except String String × Bool :=
  if !mkTempOk then
    (.error "creating temporary directory failed", false)
  else
    match w with
    | .exitZero => (.ok "DNF-CACHE", true)
    | .exitNonZero code =>
      if code = 100 then (.ok "DNF-CACHE", true)
      else (.error "creating local DNF cache", true)
    | .startFailure => (.error "creating local DNF cache", true)

/-- Sequentialized build loop over the discovered contexts (each entry:
context name, its log files before the run, its environment oracle).
Returns the contexts whose build was attempted, the `failedBuilds`
ledger, and the final log files of every context. -/
def runLoop (rebuild : Bool) :
    List (String × CtxState × JobOracle) →
    List String × List String × List (String × CtxState)
  | [] => ([], [], [])
  | (name, st, o) :: rest =>
    let r := processContext rebuild st o
    let (att, fld, fss) := runLoop rebuild rest
    ((if r.buildAttempted then [name] else []) ++ att,
     (if r.appendedToLedger then [name] else []) ++ fld,
     (name, r.fs) :: fss)

/-- Aggregate outcome of one `buildImages` run. -/
structure RunOutcome where
  /-- the error `buildImages` returns, `none` on normal completion -/
  err : Option String
  /-- contexts for which `podman build` was run -/
  attempted : List String
  /-- the `failedBuilds` ledger at the end of the run -/
  failed : List String
  /-- final log files of every discovered context -/
  finalFS : List (String × CtxState)
deriving DecidableEq

/-- main.go lines 179-268 (`buildImages`), sequentialized: if cache
provisioning returned an error it is returned at once (lines 180-183) —
no context is touched, no build attempted; otherwise the build loop runs
over the discovered contexts. -/
def buildImages (cache : Except String String) (rebuild : Bool)
    (jobs : List (String × CtxState × JobOracle)) : RunOutcome :=
  match cache with
  | .error e =>
    { err := some e
      attempted := []
      failed := []
      finalFS := jobs.map (fun j => (j.1, j.2.1)) }
  | .ok _ =>
    let (att, fld, fss) := runLoop rebuild jobs
    { err := none, attempted := att, failed := fld, finalFS := fss }

/-- A directory tree as seen by `filepath.Walk`: a plain file, a
directory whose entries could (`readable = true`) or could not be
listed, or a path whose `lstat` fails. -/
inductive FsEntry where
  | file (name : String)
  | dir (name : String) (entries : List FsEntry) (readable : Bool)
  | statFail (name : String)

/-- Name component of an entry. -/
def FsEntry.name : FsEntry → String
  | .file n => n
  | .dir n _ _ => n
  | .statFail n => n

/-- `filepath.Join` restricted to two non-empty components. -/
def pjoin (a b : String) : String := a ++ "/" ++ b

mutual
/-- The Go function `filepath.Walk` specialized to the callback at main.go lines
186-194. The callback ignores its `err` argument entirely; for a
non-directory it appends the path when the base name is `Dockerfile`
and returns nil, for a directory it returns nil. Consequences modelled
here, following `path/filepath/path.go` of the Go standard library:

* `lstat` failure (`statFail`): `Walk` invokes the callback with a nil
  `FileInfo` and the error; the callback calls `info.IsDir()` on nil —
  a runtime panic, modelled as `none`;
* unreadable directory: `readDirNames` fails, the callback is invoked
  with the error, returns nil, and `walk` returns that nil without
  descending — the subtree is silently dropped and no error surfaces;
* otherwise the children are walked in order.

`some dfs` means `filepath.Walk` returned a nil error having collected
the Dockerfile paths `dfs`; `none` means the process panicked. -/
def walkEntry : String → FsEntry → List String → Option (List String)
  | _, .statFail _, _ => none
  | path, .file n, dfs =>
    some (if n = "Dockerfile" then dfs ++ [path] else dfs)
  | path, .dir _ entries readable, dfs =>
    if readable then walkChildren path entries dfs else some dfs

/-- Walk the listed entries of a directory in order, threading the
collected Dockerfile paths, propagating a panic. -/
def walkChildren : String → List FsEntry → List String → Option (List String)
  | _, [], dfs => some dfs
  | path, e :: es, dfs =>
    match walkEntry (pjoin path e.name) e dfs with
    | none => none
    | some dfs2 => walkChildren path es dfs2
end

/-- `filepath.Walk(dir, ...)` of main.go lines 186-194: walk the tree
rooted at `root`, collecting Dockerfile paths. A `statFail` root makes
`Walk` hand the callback a nil `FileInfo`, which panics. -/
def filepathWalk (root : String) (t : FsEntry) : Option (List String) :=
  walkEntry root t []

/-- `Except.isOk` spelled out for the cache-provisioning result. -/
def exceptIsOk : Except String String → Bool
  | .ok _ => true
  | .error _ => false

/-- A context has exactly one log file: the plain one or the
failure-suffixed one, never both, never zero. -/
def exactlyOneLog (st : CtxState) : Prop :=
  (st.plainLog ≠ none ∧ st.failLog = none) ∨
  (st.plainLog = none ∧ st.failLog ≠ none)

instance (st : CtxState) : Decidable (exactlyOneLog st) := by
  unfold exactlyOneLog; infer_instance

/-- Progress of one launched goroutine of `buildImages` (main.go lines
226-257) through its observable steps. The shared-slice append
`failedBuilds = append(failedBuilds, dockerfile)` at line 240 is an
unsynchronized read-modify-write, so it occupies a phase of its own:
`midAppend` is the moment between reading the current slice value and
storing the extended one. -/
inductive JobPhase where
  /-- `podman build` is running -/
  | building
  /-- failed build, between reading `failedBuilds` and writing it back -/
  | midAppend
  /-- writing the build log (line 245) -/
  | logging
  /-- successful build, `podman rmi` is running (lines 253-256) -/
  | cleaning
  /-- log written, cleanup attempted, slot released (`defer` at 227) -/
  | done
deriving DecidableEq

/-- One launched build task: its Dockerfile path, the (predetermined)
outcome of its `podman build`, its current phase, and — while it is mid
append — the value of `failedBuilds` it read. -/
structure BTask where
  ctx : String
  failed : Bool
  phase : JobPhase
  snap : Option (List String)
deriving DecidableEq

/-- Whether a task still holds its semaphore slot: everything before
`done` (the source releases via `defer sem.Release(1)`, which runs only
after the log write and the cleanup attempt). -/
def BTask.holdsSlot (t : BTask) : Bool :=
  match t.phase with
  | .done => false
  | _ => true

/-- Number of launched tasks currently holding a slot. -/
def countRunning (ts : List BTask) : Nat :=
  ts.countP (fun t => t.holdsSlot)

/-- Global state of a `buildImages` run: Dockerfiles the main loop has
not yet reached, free semaphore slots, the launched tasks, the shared
`failedBuilds` slice, and whether the summary at lines 260-265 has been
printed. -/
structure OState where
  pending : List String
  available : Nat
  tasks : List BTask
  ledger : List String
  reported : Bool
deriving DecidableEq

/-- Initial state: all Dockerfiles pending, `N` free slots
(`semaphore.NewWeighted(int64(parallelBuilds))`), nothing launched. -/
def initState (n : Nat) (ds : List String) : OState :=
  { pending := ds, available := n, tasks := [], ledger := [], reported := false }

/-- Small-step semantics of the concurrent part of `buildImages`.
`fails` is the environment oracle: whether the build of a Dockerfile fails.
The main loop and every launched task interleave freely. Crucially, the
source has no barrier between the end of the loop and the summary print:
`report` is enabled as soon as `pending` is empty, whatever the tasks
are doing. -/
inductive OStep (fails : String → Bool) : OState → OState → Prop where
  /-- main.go lines 219, 226: `sem.Acquire` succeeds (one free slot is
  consumed) and the goroutine is launched. -/
  | launch (s : OState) (d : String) (rest : List String) (a : Nat) :
      s.pending = d :: rest → s.available = a + 1 →
      OStep fails s
        { pending := rest
          available := a
          tasks := s.tasks ++ [⟨d, fails d, .building, none⟩]
          ledger := s.ledger
          reported := s.reported }
  /-- main.go lines 219-224: `sem.Acquire` fails; the context is skipped
  without consuming a slot (its plain log write is tracked in the
  functional layer, not here). -/
  | acquireFail (s : OState) (d : String) (rest : List String) :
      s.pending = d :: rest →
      OStep fails s
        { pending := rest
          available := s.available
          tasks := s.tasks
          ledger := s.ledger
          reported := s.reported }
  /-- lines 236-240: the build of a failing task returns; the task reads
  the current `failedBuilds` value, entering the unprotected append. -/
  | buildFail (s : OState) (l₁ l₂ : List BTask) (t : BTask) :
      s.tasks = l₁ ++ t :: l₂ → t.phase = .building → t.failed = true →
      OStep fails s
        { pending := s.pending
          available := s.available
          tasks := l₁ ++ { t with phase := .midAppend, snap := some s.ledger } :: l₂
          ledger := s.ledger
          reported := s.reported }
  /-- line 240, second half: the task stores its extended copy of
  `failedBuilds`, overwriting whatever is there now. -/
  | appendWrite (s : OState) (l₁ l₂ : List BTask) (t : BTask) (snapList : List String) :
      s.tasks = l₁ ++ t :: l₂ → t.phase = .midAppend → t.snap = some snapList →
      OStep fails s
        { pending := s.pending
          available := s.available
          tasks := l₁ ++ { t with phase := .logging, snap := none } :: l₂
          ledger := snapList ++ [t.ctx]
          reported := s.reported }
  /-- lines 236, 241-243: the build of a succeeding task returns; it
  proceeds directly to the log write. -/
  | buildSucceed (s : OState) (l₁ l₂ : List BTask) (t : BTask) :
      s.tasks = l₁ ++ t :: l₂ → t.phase = .building → t.failed = false →
      OStep fails s
        { pending := s.pending
          available := s.available
          tasks := l₁ ++ { t with phase := .logging } :: l₂
          ledger := s.ledger
          reported := s.reported }
  /-- lines 245-251: log written; a failed task returns, so its deferred
  `sem.Release(1)` runs. -/
  | logWrittenFail (s : OState) (l₁ l₂ : List BTask) (t : BTask) :
      s.tasks = l₁ ++ t :: l₂ → t.phase = .logging → t.failed = true →
      OStep fails s
        { pending := s.pending
          available := s.available + 1
          tasks := l₁ ++ { t with phase := .done } :: l₂
          ledger := s.ledger
          reported := s.reported }
  /-- lines 245-253: log written; a successful task moves on to
  `podman rmi`. -/
  | logWrittenSucceed (s : OState) (l₁ l₂ : List BTask) (t : BTask) :
      s.tasks = l₁ ++ t :: l₂ → t.phase = .logging → t.failed = false →
      OStep fails s
        { pending := s.pending
          available := s.available
          tasks := l₁ ++ { t with phase := .cleaning } :: l₂
          ledger := s.ledger
          reported := s.reported }
  /-- lines 253-257: `podman rmi` finished (either way); the goroutine
  ends and its deferred `sem.Release(1)` runs. -/
  | cleanupDone (s : OState) (l₁ l₂ : List BTask) (t : BTask) :
      s.tasks = l₁ ++ t :: l₂ → t.phase = .cleaning →
      OStep fails s
        { pending := s.pending
          available := s.available + 1
          tasks := l₁ ++ { t with phase := .done } :: l₂
          ledger := s.ledger
          reported := s.reported }
  /-- lines 260-265: the main loop is done, so the summary is printed —
  immediately, with no completion barrier. -/
  | report (s : OState) :
      s.pending = [] → s.reported = false →
      OStep fails s
        { pending := []
          available := s.available
          tasks := s.tasks
          ledger := s.ledger
          reported := true }

/-- States reachable by a run of `buildImages` with parallelism `n` over
the Dockerfiles `ds`, builds failing according to `fails`. -/
def ReachableState (fails : String → Bool) (n : Nat) (ds : List String)
    (s : OState) : Prop :=
  Relation.ReflTransGen (OStep fails) (initState n ds) s

/-- Slot bookkeeping invariant: launched-and-unfinished tasks plus free
semaphore slots always add up to the configured parallelism. -/
theorem slots_inv (fails : String → Bool) (n : Nat) (ds : List String)
    (s : OState) (h : ReachableState fails n ds s) :
    countRunning s.tasks + s.available = n := by
  induction h with
  | refl => simp [initState, countRunning]
  | tail _ hstep ih =>
    cases hstep with
    | launch d rest a hp ha =>
      rw [ha] at ih
      simp [countRunning, List.countP_append, List.countP_cons,
        BTask.holdsSlot] at ih ⊢
      omega
    | acquireFail d rest hp =>
      exact ih
    | buildFail l₁ l₂ t ht hph hf =>
      rw [ht] at ih
      simp [countRunning, List.countP_append, List.countP_cons,
        BTask.holdsSlot, hph] at ih ⊢
      omega
    | appendWrite l₁ l₂ t snapList ht hph hsnap =>
      rw [ht] at ih
      simp [countRunning, List.countP_append, List.countP_cons,
        BTask.holdsSlot, hph] at ih ⊢
      omega
    | buildSucceed l₁ l₂ t ht hph hf =>
      rw [ht] at ih
      simp [countRunning, List.countP_append, List.countP_cons,
        BTask.holdsSlot, hph] at ih ⊢
      omega
    | logWrittenFail l₁ l₂ t ht hph hf =>
      rw [ht] at ih
      simp [countRunning, List.countP_append, List.countP_cons,
        BTask.holdsSlot, hph] at ih ⊢
      omega
    | logWrittenSucceed l₁ l₂ t ht hph hf =>
      rw [ht] at ih
      simp [countRunning, List.countP_append, List.countP_cons,
        BTask.holdsSlot, hph] at ih ⊢
      omega
    | cleanupDone l₁ l₂ t ht hph =>
      rw [ht] at ih
      simp [countRunning, List.countP_append, List.countP_cons,
        BTask.holdsSlot, hph] at ih ⊢
      omega
    | report hp hr =>
      exact ih


/-- C3: for every parallelism limit N ≥ 1 and every reachable state of
a run, at most N launched build tasks simultaneously hold a slot (are
past `sem.Acquire` and not yet done with their log write and cleanup). -/
theorem at_most_n_tasks_running (fails : String → Bool) (n : Nat)
    (ds : List String) (s : OState) (_hn : 1 ≤ n)
    (hs : ReachableState fails n ds s) :
    countRunning s.tasks ≤ n := by
  have h := slots_inv fails n ds s hs
  omega

/-- Witness for C3 at a concretely reached state: parallelism 1, one
Dockerfile, the task just launched. -/
theorem at_most_n_tasks_running_witness :
    1 ≤ 1 ∧
      countRunning
        ({ pending := [], available := 0,
           tasks := [⟨"a", true, .building, none⟩],
           ledger := [], reported := false } : OState).tasks ≤ 1 :=
  ⟨Nat.le_refl 1,
    at_most_n_tasks_running (fun _ => true) 1 ["a"] _ (Nat.le_refl 1)
      (Relation.ReflTransGen.single
        (OStep.launch (initState 1 ["a"]) "a" [] 0 rfl rfl))⟩

/-- C1: the source has no completion barrier between the build loop and
the failure summary — `report` can fire while a launched task is still
building. With one Dockerfile and parallelism 1, the state in which the
summary has been printed while the task still runs is reachable. -/
theorem report_races_running_task :
    ∃ s : OState,
      ReachableState (fun _ => true) 1 ["a"] s ∧
      s.reported = true ∧ countRunning s.tasks = 1 := by
  refine
    ⟨{ pending := [], available := 0,
       tasks := [⟨"a", true, .building, none⟩],
       ledger := [], reported := true }, ?_, rfl, rfl⟩
  exact Relation.ReflTransGen.tail
    (Relation.ReflTransGen.single
      (OStep.launch (initState 1 ["a"]) "a" [] 0 rfl rfl))
    (OStep.report
      { pending := [], available := 0,
        tasks := [⟨"a", true, .building, none⟩],
        ledger := [], reported := false } rfl rfl)

/-- Reachability of the state in which both failed tasks are inside the
unsynchronized append to `failedBuilds` at the same time (shared by the
two parts of the C2 theorem). -/
theorem reach_two_mid_append :
    ReachableState (fun _ => true) 2 ["a", "b"]
      { pending := [], available := 0,
        tasks := [⟨"a", true, .midAppend, some []⟩,
                  ⟨"b", true, .midAppend, some []⟩],
        ledger := [], reported := false } := by
  exact Relation.ReflTransGen.tail (Relation.ReflTransGen.tail
    (Relation.ReflTransGen.tail
      (Relation.ReflTransGen.single
        (OStep.launch (initState 2 ["a", "b"]) "a" ["b"] 1 rfl rfl))
      (OStep.launch
        { pending := ["b"], available := 1,
          tasks := [⟨"a", true, .building, none⟩],
          ledger := [], reported := false } "b" [] 0 rfl rfl))
    (OStep.buildFail
      { pending := [], available := 0,
        tasks := [⟨"a", true, .building, none⟩, ⟨"b", true, .building, none⟩],
        ledger := [], reported := false }
      [] [⟨"b", true, .building, none⟩] ⟨"a", true, .building, none⟩ rfl rfl rfl))
    (OStep.buildFail
      { pending := [], available := 0,
        tasks := [⟨"a", true, .midAppend, some []⟩, ⟨"b", true, .building, none⟩],
        ledger := [], reported := false }
      [⟨"a", true, .midAppend, some []⟩] [] ⟨"b", true, .building, none⟩ rfl rfl rfl)

/-- C2: appends to `failedBuilds` are not mutually excluded. Two failed
tasks can be inside the append simultaneously, and the interleaving in
which both read the empty slice loses one of the two appends: the run
ends with both tasks terminal, both builds failed, yet the ledger holds
only one context. -/
theorem ledger_append_unsynchronized :
    (∃ s : OState,
      ReachableState (fun _ => true) 2 ["a", "b"] s ∧
        s.tasks.countP (fun t => t.phase == JobPhase.midAppend) = 2) ∧
    (∃ s : OState,
      ReachableState (fun _ => true) 2 ["a", "b"] s ∧
        s.pending = [] ∧ countRunning s.tasks = 0 ∧
        s.tasks.countP (fun t => t.failed) = 2 ∧ s.ledger = ["b"]) := by
  constructor
  · exact ⟨_, reach_two_mid_append, rfl⟩
  · refine
      ⟨{ pending := [], available := 2,
         tasks := [⟨"a", true, .done, none⟩, ⟨"b", true, .done, none⟩],
         ledger := ["b"], reported := false }, ?_, rfl, rfl, rfl, rfl⟩
    exact Relation.ReflTransGen.tail (Relation.ReflTransGen.tail
      (Relation.ReflTransGen.tail (Relation.ReflTransGen.tail
        reach_two_mid_append
        (OStep.appendWrite
          { pending := [], available := 0,
            tasks := [⟨"a", true, .midAppend, some []⟩,
                      ⟨"b", true, .midAppend, some []⟩],
            ledger := [], reported := false }
          [] [⟨"b", true, .midAppend, some []⟩] ⟨"a", true, .midAppend, some []⟩
          [] rfl rfl rfl))
      (OStep.appendWrite
        { pending := [], available := 0,
          tasks := [⟨"a", true, .logging, none⟩,
                    ⟨"b", true, .midAppend, some []⟩],
          ledger := ["a"], reported := false }
        [⟨"a", true, .logging, none⟩] [] ⟨"b", true, .midAppend, some []⟩
        [] rfl rfl rfl))
      (OStep.logWrittenFail
        { pending := [], available := 0,
          tasks := [⟨"a", true, .logging, none⟩, ⟨"b", true, .logging, none⟩],
          ledger := ["b"], reported := false }
        [] [⟨"b", true, .logging, none⟩] ⟨"a", true, .logging, none⟩ rfl rfl rfl))
      (OStep.logWrittenFail
        { pending := [], available := 1,
          tasks := [⟨"a", true, .done, none⟩, ⟨"b", true, .logging, none⟩],
          ledger := ["b"], reported := false }
        [⟨"a", true, .done, none⟩] [] ⟨"b", true, .logging, none⟩ rfl rfl rfl)

/-- C4 counterexample: a context that kept the plain `buildlog` of an
earlier successful run and whose build now fails ends the run with BOTH
log files — the failing attempt writes `buildlog.fail` without removing
the stale plain log. -/
theorem stale_plain_log_survives_failed_build :
    ¬ exactlyOneLog
      (processContext false
        ⟨some (.buildResult false "earlier run"), none⟩
        ⟨true, false, "boom", true⟩).fs := by
  decide

/-- C4 (amended): for a context that starts the run with no log files
and whose slot acquisition succeeds, the run leaves exactly one log
file — the plain one exactly when the build succeeded. -/
theorem fresh_context_exactly_one_log (o : JobOracle)
    (h : o.acquireOk = true) :
    exactlyOneLog (processContext false ⟨none, none⟩ o).fs ∧
    ((processContext false ⟨none, none⟩ o).fs.plainLog ≠ none ↔
      o.buildOk = true) := by
  obtain ⟨a, b, out, r⟩ := o
  cases h
  cases b <;> simp [processContext, rebuildFilter, runJob, exactlyOneLog]

/-- Witness for C4 (amended) at a concrete failing build. -/
theorem fresh_context_exactly_one_log_witness :
    (JobOracle.mk true false "boom" true).acquireOk = true ∧
    (exactlyOneLog
        (processContext false ⟨none, none⟩ ⟨true, false, "boom", true⟩).fs ∧
      ((processContext false ⟨none, none⟩
          ⟨true, false, "boom", true⟩).fs.plainLog ≠ none ↔
        (JobOracle.mk true false "boom" true).buildOk = true)) :=
  ⟨rfl, fresh_context_exactly_one_log ⟨true, false, "boom", true⟩ rfl⟩

/-- C5 counterexample: when `sem.Acquire` fails the context is NOT
recorded as failed — it is never appended to `failedBuilds`, the summary of the run is empty, and the error lands in the plain `buildlog`, not in
the failure-suffixed log. -/
theorem acquire_failure_not_recorded :
    (processContext false ⟨none, none⟩
        ⟨false, true, "out", true⟩).appendedToLedger = false ∧
    (processContext false ⟨none, none⟩
        ⟨false, true, "out", true⟩).fs.failLog = none ∧
    (processContext false ⟨none, none⟩
        ⟨false, true, "out", true⟩).fs.plainLog = some .acquireError ∧
    (buildImages (Except.ok "cache") false
        [("ctx", ⟨none, none⟩, ⟨false, true, "out", true⟩)]).failed = [] := by
  decide

/-- C5 (amended): a slot-acquisition failure writes the error to the
plain-named log of the context and attempts no build, but the context is not
appended to the FailureLedger (and hence not in the summary) and its
log is not failure-suffixed. -/
theorem acquire_failure_logged_only (st : CtxState) (o : JobOracle)
    (h : o.acquireOk = false) :
    processContext false st o =
      { fs := { st with plainLog := some .acquireError }
        appendedToLedger := false
        buildAttempted := false
        cleanupAttempted := false
        cleanupWarning := false
        skipped := false } := by
  obtain ⟨a, b, out, r⟩ := o
  cases h
  simp [processContext, rebuildFilter, runJob]

/-- Witness for C5 (amended) at a concrete input. -/
theorem acquire_failure_logged_only_witness :
    (JobOracle.mk false true "out" true).acquireOk = false ∧
    processContext false ⟨none, none⟩ ⟨false, true, "out", true⟩ =
      { fs := ⟨some .acquireError, none⟩
        appendedToLedger := false
        buildAttempted := false
        cleanupAttempted := false
        cleanupWarning := false
        skipped := false } :=
  ⟨rfl, acquire_failure_logged_only ⟨none, none⟩ ⟨false, true, "out", true⟩ rfl⟩

/-- C8: `podman rmi` is attempted exactly when a build was attempted and
succeeded; the context is in the ledger exactly when a build was
attempted and failed; and the outcome of `podman rmi` changes neither
the log files nor the ledger membership nor the build-attempt record —
a deletion failure is only a logged warning. -/
theorem cleanup_iff_success (rebuild : Bool) (st : CtxState) (o : JobOracle) :
    (processContext rebuild st o).cleanupAttempted
      = ((processContext rebuild st o).buildAttempted && o.buildOk) ∧
    (processContext rebuild st o).appendedToLedger
      = ((processContext rebuild st o).buildAttempted && !o.buildOk) ∧
    (processContext rebuild st { o with rmiOk := false }).fs
      = (processContext rebuild st { o with rmiOk := true }).fs ∧
    (processContext rebuild st { o with rmiOk := false }).appendedToLedger
      = (processContext rebuild st { o with rmiOk := true }).appendedToLedger := by
  obtain ⟨a, b, out, r⟩ := o
  cases rebuild
  · cases a <;> cases b <;> simp [processContext, rebuildFilter, runJob]
  · cases hfl : st.failLog <;> cases a <;> cases b <;>
      simp [processContext, rebuildFilter, runJob, hfl]

/-- C9: in rebuild mode a context passes the filter exactly when the
failure marker `buildlog.fail` exists; whenever it passes, the state
handed to the rest of the loop body (and hence to the build) has the
marker already removed; and a context without the marker — in
particular one with only a plain log — is skipped with its files
untouched: no build, no ledger append, no cleanup. -/
theorem rebuild_selects_failed_contexts (st : CtxState) (o : JobOracle) :
    (rebuildFilter true st).isSome = st.failLog.isSome ∧
    ((rebuildFilter true st).map CtxState.failLog).getD none = none ∧
    processContext true ⟨st.plainLog, none⟩ o =
      { fs := ⟨st.plainLog, none⟩
        appendedToLedger := false
        buildAttempted := false
        cleanupAttempted := false
        cleanupWarning := false
        skipped := true } := by
  refine ⟨?_, ?_, ?_⟩
  · cases hfl : st.failLog <;> simp [rebuildFilter, hfl]
  · cases hfl : st.failLog <;> simp [rebuildFilter, hfl]
  · simp [processContext, rebuildFilter]

/-- C7: cache provisioning succeeds exactly when the warm-up command
exits zero or with the "updates are available" code 100; and whenever
it fails, `buildImages` returns the provisioning error before touching
a single context — nothing is built. -/
theorem cache_failure_aborts_run (w : CmdResult) (rebuild : Bool)
    (jobs : List (String × CtxState × JobOracle)) :
    (exceptIsOk (createDNFCache true w).1 = true ↔
      (w = .exitZero ∨ w = .exitNonZero 100)) ∧
    (exceptIsOk (createDNFCache true w).1 = false →
      (buildImages (createDNFCache true w).1 rebuild jobs).attempted = [] ∧
      (buildImages (createDNFCache true w).1 rebuild jobs).err ≠ none) := by
  constructor
  · cases w with
    | exitZero => simp [createDNFCache, exceptIsOk]
    | exitNonZero c =>
      by_cases hc : c = 100 <;> simp [createDNFCache, exceptIsOk, hc]
    | startFailure => simp [createDNFCache, exceptIsOk]
  · intro hfail
    rcases hres : (createDNFCache true w).1 with e | d
    · simp [buildImages]
    · rw [hres] at hfail
      simp [exceptIsOk] at hfail

/-- Witness for C7 at warm-up exit code 1: provisioning fails and the
run is aborted with no build attempted. -/
theorem cache_failure_aborts_run_witness :
    exceptIsOk (createDNFCache true (.exitNonZero 1)).1 = false ∧
    (buildImages (createDNFCache true (.exitNonZero 1)).1 false
        [("ctx", ⟨none, none⟩, ⟨true, true, "out", true⟩)]).attempted = [] ∧
    (buildImages (createDNFCache true (.exitNonZero 1)).1 false
        [("ctx", ⟨none, none⟩, ⟨true, true, "out", true⟩)]).err ≠ none :=
  ⟨by decide,
    (cache_failure_aborts_run (.exitNonZero 1) false
      [("ctx", ⟨none, none⟩, ⟨true, true, "out", true⟩)]).2 (by decide)⟩

/-- C10: when the warm-up command fails with anything other than exit
code 100, `createDNFCache` returns an error, yet the temporary cache
directory it created beforehand is still on disk — nothing removes it. -/
theorem cache_dir_survives_failure (w : CmdResult)
    (h : ¬(w = .exitZero ∨ w = .exitNonZero 100)) :
    exceptIsOk (createDNFCache true w).1 = false ∧
    (createDNFCache true w).2 = true := by
  cases w with
  | exitZero => exact absurd (Or.inl rfl) h
  | exitNonZero c =>
    have hc : c ≠ 100 := by
      rintro rfl
      exact h (Or.inr rfl)
    simp [createDNFCache, exceptIsOk, hc]
  | startFailure => simp [createDNFCache, exceptIsOk]

/-- Witness for C10 at warm-up exit code 1. -/
theorem cache_dir_survives_failure_witness :
    ¬((CmdResult.exitNonZero 1) = .exitZero ∨
        (CmdResult.exitNonZero 1) = .exitNonZero 100) ∧
    (exceptIsOk (createDNFCache true (.exitNonZero 1)).1 = false ∧
      (createDNFCache true (.exitNonZero 1)).2 = true) :=
  ⟨by decide, cache_dir_survives_failure (.exitNonZero 1) (by decide)⟩

/-- C6: the traversal callback of `buildImages` ignores its error
argument, so `filepath.Walk` over a tree with an unreadable
subdirectory returns no error at all and the run proceeds on the
partial Dockerfile list (the Dockerfile under the unreadable directory is
silently missing); and an unreadable root does not produce a traversal
error either — the callback dereferences the nil `FileInfo` and the
process panics. -/
theorem walk_swallows_traversal_errors :
    filepathWalk "/tmp/RPM-Dockerfiles"
      (.dir "RPM-Dockerfiles"
        [.dir "pkg-a" [.file "Dockerfile"] true,
         .dir "locked" [.file "Dockerfile"] false,
         .dir "pkg-b" [.file "Dockerfile"] true] true)
      = some ["/tmp/RPM-Dockerfiles/pkg-a/Dockerfile",
              "/tmp/RPM-Dockerfiles/pkg-b/Dockerfile"] ∧
    filepathWalk "/tmp/RPM-Dockerfiles" (.statFail "RPM-Dockerfiles") = none ∧
    (buildImages (Except.ok "cache") false
        [("/tmp/RPM-Dockerfiles/pkg-a/Dockerfile", ⟨none, none⟩,
          ⟨true, true, "out", true⟩),
         ("/tmp/RPM-Dockerfiles/pkg-b/Dockerfile", ⟨none, none⟩,
          ⟨true, true, "out", true⟩)]).err = none := by
  refine ⟨?_, rfl, rfl⟩
  decide
